import Mathlib

/-!
Shallow embedding of `src/core/middleware.py` (`RequestLoggingMiddleware`).

The Python class stores one field `get_response` at construction and, on
`__call__(request)`, reads the wall clock, invokes `self.get_response(request)`,
reads the clock again, emits one structured log record via
`logger.info("", extra={...})`, and returns the response.  An exception raised
by the downstream handler is not caught and propagates.

Modelling choices:
* wall-clock readings are oracle inputs `t₀ t₁ : ℚ` (idealised real-valued
  timestamps; `time.time()` is a wall clock, so no monotonicity between the
  two samples is assumed by the code itself);
* the downstream handler is `get_response : Request → Except ε ρ`, polymorphic
  in the response type `ρ` (Python duck-typing: the middleware only reads
  `response.status_code`, modelled by an accessor `statusOf : ρ → Int`) and in
  the exception type `ε`;
* observable effects are collected in an event trace (clock reads, the single
  downstream call with its outcome, the log emission), so that ordering and
  counting claims are statable;
* Python `int(x)` applied to a number truncates toward zero, modelled by
  `pyint`;
* `__call__` never assigns to `self`, so the model returns the `self` value
  unchanged in the `self` component of the call outcome, making frame claims
  statable.
-/

namespace ProductionScaffold

/-- A request, as the middleware sees it: `request.method`, `request.path`,
and the `META` header dictionary (association list) queried with
`request.META.get("HTTP_USER_AGENT", "-")`. -/
structure Request where
  method : String
  path : String
  META : List (String × String)
deriving Repr, DecidableEq

/-- Severity of a Python `logging` emission; `logger.info` uses `info`. -/
inductive LogLevel where
  | debug
  | info
  | warning
  | error
deriving Repr, DecidableEq

/-- One structured log record as produced by
`logger.info("", extra={"method": ..., "path": ..., "status": ...,
"duration": ..., "user_agent": ...})` on the module-level logger
`logging.getLogger("request_logger")`: the logger channel, the severity, the
(empty) message text, and exactly the five named extra fields. -/
structure LogRecord where
  logger_name : String
  level : LogLevel
  msg : String
  method : String
  path : String
  status : Int
  duration : Int
  user_agent : String
deriving Repr, DecidableEq

/-- Observable events of one middleware invocation, in program order:
a wall-clock read, the (single) downstream call together with its outcome,
and a log emission. -/
inductive Event (ε ρ : Type) where
  | clockRead (t : ℚ)
  | downstream (req : Request) (result : Except ε ρ)
  | logEmit (rec : LogRecord)
deriving Repr

/-- `Event.isDownstream e` holds exactly on downstream-call events. -/
def Event.isDownstream {ε ρ : Type} : Event ε ρ → Bool
  | .downstream _ _ => true
  | _ => false

/-- `Event.isLogEmit e` holds exactly on log-emission events. -/
def Event.isLogEmit {ε ρ : Type} : Event ε ρ → Bool
  | .logEmit _ => true
  | _ => false

/-- The log records emitted along a trace, in order. -/
def emittedRecords {ε ρ : Type} : List (Event ε ρ) → List LogRecord
  | [] => []
  | .logEmit r :: es => r :: emittedRecords es
  | _ :: es => emittedRecords es

/-- The request arguments of the downstream calls along a trace, in order. -/
def downstreamRequests {ε ρ : Type} : List (Event ε ρ) → List Request
  | [] => []
  | .downstream req _ :: es => req :: downstreamRequests es
  | _ :: es => downstreamRequests es

/-- Python `int(x)`: truncation toward zero. -/
def pyint (x : ℚ) : Int := if 0 ≤ x then ⌊x⌋ else ⌈x⌉

/-- The middleware object: `__init__(self, get_response)` stores the
downstream handler capability, its only attribute. -/
structure RequestLoggingMiddleware (ε ρ : Type) where
  get_response : Request → Except ε ρ

/-- Outcome of one `__call__`: the (possibly updated) object state, the
returned value or propagated exception, and the trace of observable events. -/
structure CallResult (ε ρ : Type) where
  self : RequestLoggingMiddleware ε ρ
  result : Except ε ρ
  trace : List (Event ε ρ)

/-- `RequestLoggingMiddleware.__call__(self, request)`:

```python
start_time = time.time()
response = self.get_response(request)
duration = int((time.time() - start_time) * 1000)
logger.info("", extra={
    "method": request.method,
    "path": request.path,
    "status": response.status_code,
    "duration": duration,
    "user_agent": request.META.get("HTTP_USER_AGENT", "-"),
})
return response
```

`t₀` is the first `time.time()` reading and `t₁` the second; if
`self.get_response(request)` raises, the second read, the log emission and
the return are never reached and the exception propagates unchanged. -/
def RequestLoggingMiddleware.call {ε ρ : Type}
    (self : RequestLoggingMiddleware ε ρ) (statusOf : ρ → Int)
    (t₀ t₁ : ℚ) (request : Request) : CallResult ε ρ :=
  let start_time := t₀
  match self.get_response request with
  | .error e =>
      { self := self
        result := .error e
        trace := [.clockRead t₀, .downstream request (.error e)] }
  | .ok response =>
      let duration : Int := pyint ((t₁ - start_time) * 1000)
      let record : LogRecord :=
        { logger_name := "request_logger"
          level := .info
          msg := ""
          method := request.method
          path := request.path
          status := statusOf response
          duration := duration
          user_agent := ((request.META.lookup "HTTP_USER_AGENT").getD "-") }
      { self := self
        result := .ok response
        trace := [.clockRead t₀, .downstream request (.ok response),
                  .clockRead t₁, .logEmit record] }

/-- A concrete request used to instantiate universally quantified theorems. -/
def demoReq : Request :=
  { method := "GET", path := "/health/", META := [("HTTP_USER_AGENT", "curl/8.0")] }

/-- A concrete request with no user-agent header. -/
def bareReq : Request :=
  { method := "GET", path := "/health/", META := [] }

/-- A concrete downstream handler that returns status 200 (response type
`Int`, read back by `statusOf := fun r => r`). -/
def okHandler : Request → Except String Int := fun _ => .ok 200

/-- A concrete downstream handler that raises. -/
def errHandler : Request → Except String Int := fun _ => .error "boom"

/-- A concrete request differing from `demoReq` only in an extra header that
the middleware never reads. -/
def demoReq2 : Request :=
  { method := "GET", path := "/health/",
    META := [("HTTP_USER_AGENT", "curl/8.0"), ("X-Extra", "1")] }

/-- On a nonnegative argument, Python truncation toward zero agrees with the
floor. -/
theorem pyint_eq_floor_of_nonneg (x : ℚ) (hx : 0 ≤ x) : pyint x = ⌊x⌋ := by
  rw [pyint, if_pos hx]

/-- When the second clock reading is at least the first, the elapsed time in
milliseconds is nonnegative. -/
theorem elapsed_ms_nonneg (t₀ t₁ : ℚ) (h : t₀ ≤ t₁) : (0:ℚ) ≤ (t₁ - t₀) * 1000 :=
  mul_nonneg (by linarith) (by norm_num)

/-- Claim C1, counterexample: the claim says the emitted `duration` equals
`round((end - start) * 1000)`, but the source computes
`int((time.time() - start_time) * 1000)`, which truncates.  With
`start = 0` and `end = 3/2000` (an elapsed time of 1.5 ms) the emitted
duration is `1` while the claimed rounding gives `2`. -/
theorem C1_counterexample :
    (emittedRecords ((RequestLoggingMiddleware.mk okHandler).call (fun r => r)
        0 (3/2000) demoReq).trace).map LogRecord.duration
      ≠ [round ((((3:ℚ)/2000) - 0) * 1000)] := by
  have h1 : (emittedRecords ((RequestLoggingMiddleware.mk okHandler).call (fun r => r)
      0 (3/2000) demoReq).trace).map LogRecord.duration = [1] := by
    simp [RequestLoggingMiddleware.call, okHandler, emittedRecords]
    norm_num [pyint]
  have h2 : round ((((3:ℚ)/2000) - 0) * 1000) = 2 := by norm_num [round_eq]
  rw [h1, h2]
  decide

/-- Claim C1 (amended): for every invocation in which the downstream handler
returns a response and the end clock reading is at least the start reading,
the `duration` field of the emitted log record equals
`⌊(end - start) * 1000⌋`, the elapsed milliseconds truncated to an integer
(Python `int(...)`: truncation toward zero, which on a nonnegative elapsed
time is the floor) — not rounded to the nearest integer. -/
theorem C1_duration_truncation {ε ρ : Type} (m : RequestLoggingMiddleware ε ρ)
    (statusOf : ρ → Int) (t₀ t₁ : ℚ) (request : Request) (resp : ρ)
    (hok : m.get_response request = .ok resp) (hle : t₀ ≤ t₁) :
    (emittedRecords (m.call statusOf t₀ t₁ request).trace).map LogRecord.duration
      = [⌊(t₁ - t₀) * 1000⌋] := by
  simp [RequestLoggingMiddleware.call, hok, emittedRecords,
    pyint_eq_floor_of_nonneg _ (elapsed_ms_nonneg t₀ t₁ hle)]

/-- Claim C1, witness: the amended statement at a concrete input
(successful handler, `start = 0`, `end = 3/2000`). -/
theorem C1_duration_truncation_witness :
    (emittedRecords ((RequestLoggingMiddleware.mk okHandler).call (fun r => r)
        0 (3/2000) demoReq).trace).map LogRecord.duration
      = [⌊(((3:ℚ)/2000) - 0) * 1000⌋] :=
  C1_duration_truncation (RequestLoggingMiddleware.mk okHandler) (fun r => r)
    0 (3/2000) demoReq 200 rfl (by norm_num)

/-- Claim C2: when the downstream handler raises, the middleware propagates
exactly that exception to its caller (no wrapping, transformation, retry, or
suppression is possible in the model: the result is the very same `error e`)
and no log record is emitted for that request. -/
theorem C2_error_propagation {ε ρ : Type} (m : RequestLoggingMiddleware ε ρ)
    (statusOf : ρ → Int) (t₀ t₁ : ℚ) (request : Request) (e : ε)
    (herr : m.get_response request = .error e) :
    (m.call statusOf t₀ t₁ request).result = .error e ∧
    emittedRecords (m.call statusOf t₀ t₁ request).trace = [] := by
  simp [RequestLoggingMiddleware.call, herr, emittedRecords]

/-- Claim C2, witness: a raising handler at a concrete input. -/
theorem C2_error_propagation_witness :
    ((RequestLoggingMiddleware.mk errHandler).call (fun r => r) 0 1 demoReq).result
        = .error "boom" ∧
    emittedRecords ((RequestLoggingMiddleware.mk errHandler).call (fun r => r)
        0 1 demoReq).trace = [] :=
  C2_error_propagation (RequestLoggingMiddleware.mk errHandler) (fun r => r)
    0 1 demoReq "boom" rfl

/-- Claim C3: when the downstream handler returns a response, the middleware
returns exactly that response value to its caller, unmodified (the response
type `ρ` is opaque to the middleware, so it cannot rebuild or alter it). -/
theorem C3_response_returned_unmodified {ε ρ : Type}
    (m : RequestLoggingMiddleware ε ρ) (statusOf : ρ → Int)
    (t₀ t₁ : ℚ) (request : Request) (resp : ρ)
    (hok : m.get_response request = .ok resp) :
    (m.call statusOf t₀ t₁ request).result = .ok resp := by
  simp [RequestLoggingMiddleware.call, hok]

/-- Claim C3, witness: a handler returning `200` at a concrete input. -/
theorem C3_response_returned_unmodified_witness :
    ((RequestLoggingMiddleware.mk okHandler).call (fun r => r) 0 1 demoReq).result
      = Except.ok 200 :=
  C3_response_returned_unmodified (RequestLoggingMiddleware.mk okHandler)
    (fun r => r) 0 1 demoReq 200 rfl

/-- Claim C4: when the downstream handler returns a response, exactly one log
record is emitted; it is at informational severity on the `request_logger`
channel, carries no message text, its `method` and `path` fields come from
the request, and its `status` field equals the returned response's status
code.  (The `LogRecord` type carries exactly the five named extra fields
`method`, `path`, `status`, `duration`, `user_agent`.) -/
theorem C4_single_info_record {ε ρ : Type} (m : RequestLoggingMiddleware ε ρ)
    (statusOf : ρ → Int) (t₀ t₁ : ℚ) (request : Request) (resp : ρ)
    (hok : m.get_response request = .ok resp) :
    (emittedRecords (m.call statusOf t₀ t₁ request).trace).length = 1 ∧
    ∀ rec ∈ emittedRecords (m.call statusOf t₀ t₁ request).trace,
      rec.logger_name = "request_logger" ∧ rec.level = .info ∧ rec.msg = "" ∧
      rec.method = request.method ∧ rec.path = request.path ∧
      rec.status = statusOf resp := by
  simp [RequestLoggingMiddleware.call, hok, emittedRecords]

/-- Claim C4, witness: the record emitted for a concrete successful call. -/
theorem C4_single_info_record_witness :
    (emittedRecords ((RequestLoggingMiddleware.mk okHandler).call (fun r => r)
      0 1 demoReq).trace).length = 1 ∧
    ∀ rec ∈ emittedRecords ((RequestLoggingMiddleware.mk okHandler).call (fun r => r)
      0 1 demoReq).trace,
      rec.logger_name = "request_logger" ∧ rec.level = .info ∧ rec.msg = "" ∧
      rec.method = demoReq.method ∧ rec.path = demoReq.path ∧
      rec.status = (fun r => r : Int → Int) 200 :=
  C4_single_info_record (RequestLoggingMiddleware.mk okHandler) (fun r => r)
    0 1 demoReq 200 rfl

/-- Claim C5: on every invocation — whether the downstream handler returns or
raises — the downstream handler is invoked exactly once, and the argument
passed to it is the very request object the middleware received.  (Synchrony
is built into the sequential trace semantics: the single downstream event
lies between the two clock reads of the same invocation.) -/
theorem C5_downstream_called_once {ε ρ : Type} (m : RequestLoggingMiddleware ε ρ)
    (statusOf : ρ → Int) (t₀ t₁ : ℚ) (request : Request) :
    downstreamRequests (m.call statusOf t₀ t₁ request).trace = [request] := by
  cases hgr : m.get_response request <;>
    simp [RequestLoggingMiddleware.call, hgr, downstreamRequests]

/-- Claim C6, counterexample: the claim says the emitted `duration` is always
nonnegative, but the code samples the wall clock (`time.time()`), which may
step backwards between the two readings; with `start = 1` and `end = 0` the
single emitted record has `duration = -1000 < 0`. -/
theorem C6_counterexample :
    (emittedRecords ((RequestLoggingMiddleware.mk okHandler).call (fun r => r)
        1 0 demoReq).trace).map LogRecord.duration = [-1000] ∧
    ¬ (0 ≤ (-1000 : Int)) := by
  constructor
  · have htr : (emittedRecords ((RequestLoggingMiddleware.mk okHandler).call (fun r => r)
        1 0 demoReq).trace).map LogRecord.duration = [pyint (((0:ℚ) - 1) * 1000)] := by
      simp [RequestLoggingMiddleware.call, okHandler, emittedRecords]
    have hpy : pyint (((0:ℚ) - 1) * 1000) = -1000 := by
      have hc : (((0:ℚ)) - 1) * 1000 = ((-1000 : Int) : ℚ) := by norm_num
      rw [pyint, hc, Int.ceil_intCast]
      norm_num
    rw [htr, hpy]
  · decide

/-- Claim C6 (amended): the `duration` field of every emitted record is an
integer (by construction), and it is nonnegative whenever the end clock
reading is at least the start reading — i.e. on every invocation during which
the wall clock did not step backwards. -/
theorem C6_duration_nonneg {ε ρ : Type} (m : RequestLoggingMiddleware ε ρ)
    (statusOf : ρ → Int) (t₀ t₁ : ℚ) (request : Request)
    (hle : t₀ ≤ t₁) :
    ∀ rec ∈ emittedRecords (m.call statusOf t₀ t₁ request).trace,
      0 ≤ rec.duration := by
  cases hgr : m.get_response request <;>
    simp [RequestLoggingMiddleware.call, hgr, emittedRecords]
  rw [pyint_eq_floor_of_nonneg _ (elapsed_ms_nonneg t₀ t₁ hle)]
  exact Int.floor_nonneg.mpr (elapsed_ms_nonneg t₀ t₁ hle)

/-- Claim C6, witness: the amended statement at a concrete input with
`start = 0 ≤ 1 = end`: the (single) emitted duration is nonnegative. -/
theorem C6_duration_nonneg_witness :
    0 ≤ ((emittedRecords ((RequestLoggingMiddleware.mk okHandler).call (fun r => r)
        0 1 demoReq).trace).map LogRecord.duration).headI := by
  have h := C6_duration_nonneg (RequestLoggingMiddleware.mk okHandler) (fun r => r)
    0 1 demoReq (by norm_num)
  simp [RequestLoggingMiddleware.call, okHandler, emittedRecords] at h ⊢
  exact h

/-- Claim C7: on a successful invocation, if the request carries no
user-agent header the emitted record's `user_agent` field is the literal
`"-"`; if the header is present with value `v`, the field equals `v`. -/
theorem C7_user_agent_default {ε ρ : Type} (m : RequestLoggingMiddleware ε ρ)
    (statusOf : ρ → Int) (t₀ t₁ : ℚ) (request : Request) (resp : ρ)
    (hok : m.get_response request = .ok resp) :
    (request.META.lookup "HTTP_USER_AGENT" = none →
      (emittedRecords (m.call statusOf t₀ t₁ request).trace).map LogRecord.user_agent
        = ["-"]) ∧
    ∀ v, request.META.lookup "HTTP_USER_AGENT" = some v →
      (emittedRecords (m.call statusOf t₀ t₁ request).trace).map LogRecord.user_agent
        = [v] := by
  constructor
  · intro hnone
    simp [RequestLoggingMiddleware.call, hok, emittedRecords, hnone]
  · intro v hv
    simp [RequestLoggingMiddleware.call, hok, emittedRecords, hv]

/-- Claim C7, witness: a concrete request with no user-agent header yields
the sentinel `"-"`. -/
theorem C7_user_agent_default_witness :
    (emittedRecords ((RequestLoggingMiddleware.mk okHandler).call (fun r => r)
        0 1 bareReq).trace).map LogRecord.user_agent = ["-"] :=
  (C7_user_agent_default (RequestLoggingMiddleware.mk okHandler) (fun r => r)
    0 1 bareReq 200 rfl).1 rfl

/-- Claim C8: on a successful invocation the trace contains exactly one
downstream call and exactly one log emission, and the trace decomposes as
`A ++ downstream :: (B ++ logEmit :: C)`: the unique log emission happens
strictly after the downstream response is obtained.  The emission lies
inside the invocation's trace, all of which precedes the return of the
response (the trace ends when `__call__` returns), so no other ordering of
the three events is possible. -/
theorem C8_emit_between_downstream_and_return {ε ρ : Type}
    (m : RequestLoggingMiddleware ε ρ) (statusOf : ρ → Int)
    (t₀ t₁ : ℚ) (request : Request) (resp : ρ)
    (hok : m.get_response request = .ok resp) :
    (m.call statusOf t₀ t₁ request).trace.countP Event.isDownstream = 1 ∧
    (m.call statusOf t₀ t₁ request).trace.countP Event.isLogEmit = 1 ∧
    ∃ rec A B C, (m.call statusOf t₀ t₁ request).trace
      = A ++ Event.downstream request (Except.ok resp) :: (B ++ Event.logEmit rec :: C) := by
  refine ⟨?_, ?_, ?_⟩
  · simp [RequestLoggingMiddleware.call, hok, List.countP_cons, List.countP_nil,
      Event.isDownstream, Event.isLogEmit]
  · simp [RequestLoggingMiddleware.call, hok, List.countP_cons, List.countP_nil,
      Event.isDownstream, Event.isLogEmit]
  · simp only [RequestLoggingMiddleware.call, hok]
    exact ⟨_, [Event.clockRead t₀], [Event.clockRead t₁], [], rfl⟩

/-- Claim C8, witness: the ordering statement at a concrete input. -/
theorem C8_emit_between_downstream_and_return_witness :
    ((RequestLoggingMiddleware.mk okHandler).call (fun r => r) 0 1 demoReq).trace.countP
        Event.isDownstream = 1 ∧
    ((RequestLoggingMiddleware.mk okHandler).call (fun r => r) 0 1 demoReq).trace.countP
        Event.isLogEmit = 1 ∧
    ∃ rec A B C, ((RequestLoggingMiddleware.mk okHandler).call (fun r => r) 0 1 demoReq).trace
      = A ++ Event.downstream demoReq (Except.ok 200) :: (B ++ Event.logEmit rec :: C) :=
  C8_emit_between_downstream_and_return (RequestLoggingMiddleware.mk okHandler)
    (fun r => r) 0 1 demoReq 200 rfl

/-- Claim C9: `__call__` never modifies the middleware object — the `self`
returned by a call is the very middleware that was invoked — so no internal
state flows from one invocation to the next: invoking the object returned by
one call behaves exactly like invoking the original object, for any
arguments.  Every call therefore depends only on its arguments, the clock
readings, and the stored downstream handler. -/
theorem C9_stateless {ε ρ : Type} (m : RequestLoggingMiddleware ε ρ)
    (statusOf statusOf' : ρ → Int) (t₀ t₁ t₀' t₁' : ℚ)
    (request request' : Request) :
    (m.call statusOf t₀ t₁ request).self = m ∧
    ((m.call statusOf t₀ t₁ request).self.call statusOf' t₀' t₁' request')
      = m.call statusOf' t₀' t₁' request' := by
  have hself : (m.call statusOf t₀ t₁ request).self = m := by
    cases hgr : m.get_response request <;> simp [RequestLoggingMiddleware.call, hgr]
  exact ⟨hself, by rw [hself]⟩

/-- Claim C10: the middleware is deterministic.  Two invocations on requests
agreeing on method, path, and user-agent header, with the same clock readings
and downstream handlers producing the same outcome, return the same result
and emit the same log records. -/
theorem C10_deterministic {ε ρ : Type} (m₁ m₂ : RequestLoggingMiddleware ε ρ)
    (statusOf : ρ → Int) (t₀ t₁ : ℚ) (r₁ r₂ : Request)
    (hm : r₁.method = r₂.method) (hp : r₁.path = r₂.path)
    (hua : r₁.META.lookup "HTTP_USER_AGENT" = r₂.META.lookup "HTTP_USER_AGENT")
    (hh : m₁.get_response r₁ = m₂.get_response r₂) :
    (m₁.call statusOf t₀ t₁ r₁).result = (m₂.call statusOf t₀ t₁ r₂).result ∧
    emittedRecords (m₁.call statusOf t₀ t₁ r₁).trace
      = emittedRecords (m₂.call statusOf t₀ t₁ r₂).trace := by
  cases hgr : m₂.get_response r₂ <;> rw [hgr] at hh <;>
    simp [RequestLoggingMiddleware.call, hgr, hh, hm, hp, hua, emittedRecords]

/-- Claim C10, witness: two concrete requests differing only in a header the
middleware never reads produce identical results and identical records. -/
theorem C10_deterministic_witness :
    ((RequestLoggingMiddleware.mk okHandler).call (fun r => r) 0 1 demoReq).result
      = ((RequestLoggingMiddleware.mk okHandler).call (fun r => r) 0 1 demoReq2).result ∧
    emittedRecords ((RequestLoggingMiddleware.mk okHandler).call (fun r => r)
        0 1 demoReq).trace
      = emittedRecords ((RequestLoggingMiddleware.mk okHandler).call (fun r => r)
        0 1 demoReq2).trace :=
  C10_deterministic (RequestLoggingMiddleware.mk okHandler)
    (RequestLoggingMiddleware.mk okHandler) (fun r => r) 0 1 demoReq demoReq2
    rfl rfl (by decide) rfl

end ProductionScaffold
